import Mathlib

/-!
Shallow embedding of the OpenRouter client (`openrouter_client.py`):
the data model (client state, responses, stream chunks, cost records)
and the operations the cost-accounting claims are about.

Modelling conventions:
* Python floats are modelled as exact rationals (`ℚ`).
* The remote HTTP API is an external collaborator: every operation takes
  the remote's answer (a `Response`, or a list of `Chunk`s for streaming)
  as an explicit argument.
* Attributes of a remote response that can be missing/falsy, raise on
  access or parse, or be well-formed, are modelled by `Attr`.
* Python generators: a streaming call takes a `requested : ℕ` counting how
  many times the consumer pulled on the iterator.  The epilogue after the
  `for chunk in stream` loop (cost estimation and accumulator update) runs
  only when the consumer pulls past the last yielded fragment, which is
  what a full `for` drain does.
-/

/-- A remote-response attribute: `absent` (attribute missing or falsy),
`malformed` (accessing/parsing it raises `AttributeError`/`ValueError`/
`TypeError`), or `good v` (well-formed with value `v`). -/
inductive Attr (α : Type) where
  | absent
  | malformed
  | good (v : α)
deriving DecidableEq, Repr

/-- The `response.usage` token counts (`prompt_tokens`, `completion_tokens`,
`total_tokens`).  These are remote-supplied Python ints: the code never
checks their sign, so they are modelled as integers, negative values
included. -/
structure Usage where
  prompt_tokens : ℤ
  completion_tokens : ℤ
  total_tokens : ℤ
deriving DecidableEq, Repr

/-- A non-streaming remote response: `usage`, the `extra_body['cost']['total']`
field, the `response_headers['x-cost']` field, and the text content of
`choices[0].message.content`. -/
structure Response where
  usage : Attr Usage
  extraBodyCost : Attr ℚ
  headerCost : Attr ℚ
  content : String
deriving DecidableEq, Repr

/-- The `usage_info` dictionary built by `_extract_cost_info`: the three
token fields are present iff `usage` is set, and the `cost` key is present
iff a cost was extracted. -/
structure UsageInfo where
  usage : Option Usage
  cost : Option ℚ
deriving DecidableEq, Repr

/-- Python truthiness of the `usage_info` dict: non-empty. -/
def UsageInfo.truthy (u : UsageInfo) : Bool :=
  u.usage.isSome || u.cost.isSome

/-- `usage_info.get('prompt_tokens', 0)`. -/
def UsageInfo.promptTokens (u : UsageInfo) : ℤ :=
  (u.usage.map Usage.prompt_tokens).getD 0

/-- `usage_info.get('completion_tokens', 0)`. -/
def UsageInfo.completionTokens (u : UsageInfo) : ℤ :=
  (u.usage.map Usage.completion_tokens).getD 0

/-- The client object: API key, attribution headers, and the two
cost-tracking accumulators set in `__init__`. -/
structure Client where
  api_key : String
  site_url : Option String
  site_name : Option String
  total_cost : ℚ
  request_count : ℕ
deriving DecidableEq, Repr

/-- Python truthiness of an optional string (`None` and `""` are falsy). -/
def falsyStr : Option String → Bool
  | none => true
  | some s => s == ""

/-- Python `a or b` on optional strings. -/
def pyOr (a b : Option String) : Option String :=
  if falsyStr a then b else a

/-- `OpenRouterClient.__init__`: `api_key or os.getenv("OPENROUTER_API_KEY")`,
raising `ValueError` when the result is falsy; attribution headers fall back
to their environment variables; accumulators start at zero. -/
def clientInit (api_key env_api_key site_url env_site_url
    site_name env_site_name : Option String) : Except String Client :=
  let key := pyOr api_key env_api_key
  if falsyStr key then
    .error "API key is required. Set OPENROUTER_API_KEY environment variable or pass api_key parameter."
  else
    .ok { api_key := key.getD ""
          site_url := pyOr site_url env_site_url
          site_name := pyOr site_name env_site_name
          total_cost := 0
          request_count := 0 }

/-- The body of the `try:` block of `_extract_cost_info`, with Python
exception semantics made explicit: `.error` carries the values of
`cost` and `usage_info` at the point where the exception was raised
(the `except` clause swallows the exception and the function returns
whatever was assigned so far). -/
def extractBody (r : Response) : Except (ℚ × UsageInfo) (ℚ × UsageInfo) :=
  match r.usage with
  | .malformed => .error (0, ⟨none, none⟩)
  | u =>
    let ui : UsageInfo := ⟨match u with | .good v => some v | _ => none, none⟩
    match r.extraBodyCost with
    | .malformed => .error (0, ui)
    | eb =>
      let cost : ℚ := match eb with | .good q => q | _ => 0
      let ui : UsageInfo := match eb with | .good q => { ui with cost := some q } | _ => ui
      match r.headerCost with
      | .malformed => .error (cost, ui)
      | .good q2 => .ok (q2, { ui with cost := some q2 })
      | .absent => .ok (cost, ui)

/-- `OpenRouterClient._extract_cost_info`: the `try` body with every
`AttributeError`/`ValueError`/`TypeError` caught and discarded. -/
def extract_cost_info (r : Response) : ℚ × UsageInfo :=
  match extractBody r with
  | .ok v => v
  | .error v => v

/-- The keys of the hard-coded pricing dictionary in `_estimate_cost`. -/
def pricingKeys : List String :=
  ["x-ai/grok-4-fast", "x-ai/grok-4", "anthropic/claude-3.5-sonnet",
   "anthropic/claude-3-haiku", "openai/gpt-4o", "openai/gpt-4o-mini",
   "google/gemini-pro", "meta-llama/llama-3.1-8b-instruct",
   "meta-llama/llama-3.1-70b-instruct"]

/-- `pricing.get(model, {"input": 0.001, "output": 0.003})`: the per-1K-token
(input, output) rates of the hard-coded table, with the default fallback for
unknown models. -/
def modelPricing (model : String) : ℚ × ℚ :=
  if model = "x-ai/grok-4-fast" then (0.001, 0.003)
  else if model = "x-ai/grok-4" then (0.002, 0.006)
  else if model = "anthropic/claude-3.5-sonnet" then (0.003, 0.015)
  else if model = "anthropic/claude-3-haiku" then (0.00025, 0.00125)
  else if model = "openai/gpt-4o" then (0.005, 0.015)
  else if model = "openai/gpt-4o-mini" then (0.00015, 0.0006)
  else if model = "google/gemini-pro" then (0.0005, 0.0015)
  else if model = "meta-llama/llama-3.1-8b-instruct" then (0.0002, 0.0002)
  else if model = "meta-llama/llama-3.1-70b-instruct" then (0.0009, 0.0009)
  else (0.001, 0.003)

/-- `OpenRouterClient._estimate_cost`:
`(prompt_tokens / 1000) * input_rate + (completion_tokens / 1000) * output_rate`.
The token counts are Python ints (possibly negative, unchecked). -/
def _estimate_cost (model : String) (prompt_tokens completion_tokens : ℤ) : ℚ :=
  let mp := modelPricing model
  (prompt_tokens : ℚ) / 1000 * mp.1 + (completion_tokens : ℚ) / 1000 * mp.2

/-- The dictionary returned by `get_cost_summary`. -/
structure CostSummary where
  total_cost : ℚ
  request_count : ℕ
  average_cost_per_request : ℚ
deriving DecidableEq, Repr

/-- `OpenRouterClient.get_cost_summary`. -/
def get_cost_summary (c : Client) : CostSummary :=
  { total_cost := c.total_cost
    request_count := c.request_count
    average_cost_per_request := c.total_cost / (max c.request_count 1 : ℕ) }

/-- A part of a multi-part message content (`{"type": "text", ...}` or
`{"type": "image_url", ...}`). -/
inductive ContentPart where
  | text (s : String)
  | image_url (url : String)
deriving DecidableEq, Repr

/-- Message content: plain text or a list of typed parts. -/
inductive MsgContent where
  | str (s : String)
  | parts (ps : List ContentPart)
deriving DecidableEq, Repr

/-- A chat message (`{"role": ..., "content": ...}`). -/
structure Message where
  role : String
  content : MsgContent
deriving DecidableEq, Repr

/-- The `cost_info` record attached to a non-streaming response. -/
structure CostInfo where
  cost : ℚ
  usage : UsageInfo
  model : String
deriving DecidableEq, Repr

/-- `OpenRouterClient.chat_completion`: extract or estimate the cost of the
remote response `resp`, bump the accumulators, attach the cost record, and
return `choices[0].message.content`. -/
def chat_completion (c : Client) (_messages : List Message) (model : String)
    (resp : Response) : Client × CostInfo × String :=
  let e := extract_cost_info resp
  let cost := if e.1 = 0 ∧ e.2.truthy then
      _estimate_cost model e.2.promptTokens e.2.completionTokens
    else e.1
  ({ c with total_cost := c.total_cost + cost, request_count := c.request_count + 1 },
   { cost := cost, usage := e.2, model := model },
   resp.content)

/-- The single user message carrying the text prompt and the image URL that
`analyze_image` / `analyze_image_stream` build. -/
def imageMessages (image_url prompt : String) : List Message :=
  [{ role := "user", content := .parts [.text prompt, .image_url image_url] }]

/-- `OpenRouterClient.analyze_image`: same cost accounting as
`chat_completion`, on the image-prompt message payload. -/
def analyze_image (c : Client) (image_url prompt model : String)
    (resp : Response) : Client × CostInfo × String :=
  let e := extract_cost_info resp
  let cost := if e.1 = 0 ∧ e.2.truthy then
      _estimate_cost model e.2.promptTokens e.2.completionTokens
    else e.1
  let _msgs := imageMessages image_url prompt
  ({ c with total_cost := c.total_cost + cost, request_count := c.request_count + 1 },
   { cost := cost, usage := e.2, model := model },
   resp.content)

/-- The fixed system instruction prepended by `research_query` and
`research_query_stream`. -/
def researchSystemInstruction : String :=
  "You are an AI research assistant. Provide detailed, accurate, and well-structured responses to research queries."

/-- The two-element message list built by `research_query` /
`research_query_stream`. -/
def researchMessages (query : String) : List Message :=
  [{ role := "system", content := .str researchSystemInstruction },
   { role := "user", content := .str query }]

/-- `OpenRouterClient.research_query`: delegates to `chat_completion` on the
wrapped messages. -/
def research_query (c : Client) (query model : String)
    (resp : Response) : Client × CostInfo × String :=
  chat_completion c (researchMessages query) model resp

/-- The usage block of a streaming chunk; either token field may be `None`
(the code reads it as `chunk.usage.prompt_tokens or 0`).  The counts are
remote-supplied Python ints, so negative values pass through `or 0`
unchanged. -/
structure StreamUsage where
  prompt_tokens : Option ℤ
  completion_tokens : Option ℤ
deriving DecidableEq, Repr

/-- A streaming chunk: `choices[0].delta.content` (possibly `None`) and an
optional usage block. -/
structure Chunk where
  content : Option String
  usage : Option StreamUsage
deriving DecidableEq, Repr

/-- Word counting over a character list: the number of maximal runs of
non-whitespace characters (`inWord` records whether the previous character
was part of a word). -/
def countWordsAux : List Char → Bool → ℕ
  | [], _ => 0
  | ch :: rest, inWord =>
    if ch.isWhitespace then countWordsAux rest false
    else (if inWord then 0 else 1) + countWordsAux rest true

/-- `len(content.split())`: the number of whitespace-separated segments of a
text fragment (Python `str.split()` with no separator splits on runs of
whitespace and drops empty segments, so this is the number of maximal
non-whitespace runs). -/
def countWords (s : String) : ℕ :=
  countWordsAux s.data false

/-- The text fragments a stream yields: the non-`None`
`choices[0].delta.content` values in order. -/
def streamFragments (chunks : List Chunk) : List String :=
  chunks.filterMap Chunk.content

/-- The `for chunk in stream` loop body of the streaming operations, from a
given accumulator state `(prompt_tokens, completion_tokens, full_response)`:
each fragment adds its word count to `completion_tokens` and is appended to
`full_response`; a usage-bearing chunk overwrites both token counters with
`chunk.usage.prompt_tokens or 0` / `chunk.usage.completion_tokens or 0`. -/
def streamScanFrom (pt ct : ℤ) (full : String) : List Chunk → ℤ × ℤ × String
  | [] => (pt, ct, full)
  | ch :: rest =>
    let ct2 := match ch.content with
      | some s => ct + (countWords s : ℤ)
      | none => ct
    let full2 := match ch.content with
      | some s => full ++ s
      | none => full
    match ch.usage with
    | some u => streamScanFrom (u.prompt_tokens.getD 0) (u.completion_tokens.getD 0) full2 rest
    | none => streamScanFrom pt ct2 full2 rest

/-- The whole `for chunk in stream` loop, from the initial
`prompt_tokens = 0, completion_tokens = 0, full_response = ""`. -/
def streamScan (chunks : List Chunk) : ℤ × ℤ × String :=
  streamScanFrom 0 0 "" chunks

/-- The `cost_info` record attached to a drained stream. -/
structure StreamCostInfo where
  cost : ℚ
  prompt_tokens : ℤ
  completion_tokens : ℤ
  total_tokens : ℤ
  model : String
deriving DecidableEq, Repr

/-- The epilogue after the streaming loop: estimate the cost from the final
token counters, bump the accumulators and attach the cost record. -/
def streamDrain (c : Client) (model : String) (chunks : List Chunk) :
    Client × StreamCostInfo :=
  let s := streamScan chunks
  let cost := _estimate_cost model s.1 s.2.1
  ({ c with total_cost := c.total_cost + cost, request_count := c.request_count + 1 },
   { cost := cost, prompt_tokens := s.1, completion_tokens := s.2.1,
     total_tokens := s.1 + s.2.1, model := model })

/-- `OpenRouterClient.chat_completion_stream` as seen by a consumer that
pulls `requested` times on the generator: as long as the consumer has not
pulled past the last fragment the generator is merely suspended — it has
yielded a prefix of the fragments, no cost record exists, and the
accumulators are untouched; pulling past the last fragment runs the
epilogue (a full `for` drain does exactly that). -/
def chat_completion_stream (c : Client) (_messages : List Message) (model : String)
    (chunks : List Chunk) (requested : ℕ) :
    Client × Option StreamCostInfo × List String :=
  let frags := streamFragments chunks
  if requested ≤ frags.length then
    (c, none, frags.take requested)
  else
    let d := streamDrain c model chunks
    (d.1, some d.2, frags)

/-- `OpenRouterClient.analyze_image_stream`: the same streaming accounting,
on the image-prompt message payload. -/
def analyze_image_stream (c : Client) (image_url prompt model : String)
    (chunks : List Chunk) (requested : ℕ) :
    Client × Option StreamCostInfo × List String :=
  let _msgs := imageMessages image_url prompt
  let frags := streamFragments chunks
  if requested ≤ frags.length then
    (c, none, frags.take requested)
  else
    let d := streamDrain c model chunks
    (d.1, some d.2, frags)

/-- `OpenRouterClient.research_query_stream`: re-yields every chunk of
`chat_completion_stream` on the wrapped messages; stopping the outer
iteration early leaves the inner generator suspended too. -/
def research_query_stream (c : Client) (query model : String)
    (chunks : List Chunk) (requested : ℕ) :
    Client × Option StreamCostInfo × List String :=
  chat_completion_stream c (researchMessages query) model chunks requested

/-- One completed request of any kind, carrying the remote's answer
(a `Response`, or the chunk list of a fully drained stream). -/
inductive Req where
  | chat (messages : List Message) (model : String) (resp : Response)
  | image (image_url prompt model : String) (resp : Response)
  | chatStream (messages : List Message) (model : String) (chunks : List Chunk)
  | imageStream (image_url prompt model : String) (chunks : List Chunk)
deriving DecidableEq, Repr

/-- Execute one completed request; return the new client and the `cost`
field of the attached cost record. -/
def stepReq (c : Client) : Req → Client × ℚ
  | .chat ms m r => ((chat_completion c ms m r).1, (chat_completion c ms m r).2.1.cost)
  | .image u p m r => ((analyze_image c u p m r).1, (analyze_image c u p m r).2.1.cost)
  | .chatStream _ m ks => ((streamDrain c m ks).1, (streamDrain c m ks).2.cost)
  | .imageStream _ _ m ks => ((streamDrain c m ks).1, (streamDrain c m ks).2.cost)

/-- Execute a sequence of completed requests, collecting the `cost` fields
of the attached cost records. -/
def runRequests (c : Client) : List Req → Client × List ℚ
  | [] => (c, [])
  | r :: rs =>
    let s := stepReq c r
    let t := runRequests s.1 rs
    (t.1, s.2 :: t.2)

/-- A freshly constructed client (accumulators at zero). -/
def freshClient : Client :=
  { api_key := "k", site_url := none, site_name := none,
    total_cost := 0, request_count := 0 }

/-! ## Helper lemmas -/

/-- Every completed request bumps `request_count` by exactly one and adds
exactly the `cost` field of its attached cost record to `total_cost`. -/
theorem stepReq_accounting (c : Client) (r : Req) :
    (stepReq c r).1.request_count = c.request_count + 1 ∧
    (stepReq c r).1.total_cost = c.total_cost + (stepReq c r).2 := by
  cases r <;> simp [stepReq, chat_completion, analyze_image, streamDrain]

/-- Running a request sequence adds its length to `request_count` and the
sum of the attached costs to `total_cost`. -/
theorem runRequests_accounting (reqs : List Req) : ∀ c : Client,
    (runRequests c reqs).1.request_count = c.request_count + reqs.length ∧
    (runRequests c reqs).1.total_cost = c.total_cost + ((runRequests c reqs).2).sum := by
  induction reqs with
  | nil => intro c; simp [runRequests]
  | cons r rs ih =>
    intro c
    have hstep := stepReq_accounting c r
    have hrest := ih (stepReq c r).1
    simp only [runRequests, List.length_cons, List.sum_cons]
    constructor
    · rw [hrest.1, hstep.1]; omega
    · rw [hrest.2, hstep.2]; ring

/-! ## Claims -/

/-- C1: for every sequence of N completed requests (any mix of
`analyze_image`, `chat_completion` and fully drained streaming calls) on a
freshly constructed client, `request_count` equals N afterwards and
`total_cost` equals the sum of the `cost` fields of the N attached cost
records; each call increments `request_count` by exactly 1 and adds exactly
its attached cost to `total_cost`. -/
theorem claim1_cost_accumulators (c : Client)
    (h1 : c.request_count = 0) (h2 : c.total_cost = 0) (reqs : List Req) :
    (runRequests c reqs).1.request_count = reqs.length ∧
    (runRequests c reqs).1.total_cost = ((runRequests c reqs).2).sum ∧
    (∀ (c2 : Client) (r : Req),
      (stepReq c2 r).1.request_count = c2.request_count + 1 ∧
      (stepReq c2 r).1.total_cost = c2.total_cost + (stepReq c2 r).2) := by
  have h := runRequests_accounting reqs c
  refine ⟨?_, ?_, fun c2 r => stepReq_accounting c2 r⟩
  · rw [h.1, h1]; omega
  · rw [h.2, h2]; ring

/-- Witness for C1 at a fresh client and a concrete two-request sequence. -/
theorem claim1_cost_accumulators_witness :
    freshClient.request_count = 0 ∧ freshClient.total_cost = 0 ∧
    ((runRequests freshClient
        [Req.chat [] "m" ⟨.absent, .absent, .absent, "hi"⟩,
         Req.chatStream [] "m" [⟨some "Hello", none⟩]]).1.request_count = 2 ∧
      (runRequests freshClient
        [Req.chat [] "m" ⟨.absent, .absent, .absent, "hi"⟩,
         Req.chatStream [] "m" [⟨some "Hello", none⟩]]).1.total_cost =
        ((runRequests freshClient
          [Req.chat [] "m" ⟨.absent, .absent, .absent, "hi"⟩,
           Req.chatStream [] "m" [⟨some "Hello", none⟩]]).2).sum) :=
  ⟨rfl, rfl,
    (claim1_cost_accumulators freshClient rfl rfl _).1,
    (claim1_cost_accumulators freshClient rfl rfl _).2.1⟩

/-- C2: `get_cost_summary` returns
`average_cost_per_request = total_cost / max(request_count, 1)`; with zero
requests it returns `total_cost` itself (no division error), and with a
positive count the fields satisfy
`total_cost = average_cost_per_request * request_count` (exactly, in `ℚ`). -/
theorem claim2_cost_summary (c : Client) :
    (get_cost_summary c).average_cost_per_request
      = c.total_cost / (max c.request_count 1 : ℕ) ∧
    (c.request_count = 0 →
      (get_cost_summary c).average_cost_per_request = c.total_cost) ∧
    (0 < c.request_count →
      (get_cost_summary c).total_cost
        = (get_cost_summary c).average_cost_per_request
            * (get_cost_summary c).request_count) := by
  refine ⟨rfl, ?_, ?_⟩
  · intro h
    simp [get_cost_summary, h]
  · intro h
    have hmax : max c.request_count 1 = c.request_count := Nat.max_eq_left h
    have hne : ((c.request_count : ℚ)) ≠ 0 := by
      exact_mod_cast Nat.pos_iff_ne_zero.mp h
    simp only [get_cost_summary, hmax]
    rw [div_mul_cancel₀ _ hne]

/-- Witness for C2 at a client with 2 requests and total cost 5. -/
theorem claim2_cost_summary_witness :
    0 < (Client.mk "k" none none 5 2).request_count ∧
    (get_cost_summary (Client.mk "k" none none 5 2)).total_cost
      = (get_cost_summary (Client.mk "k" none none 5 2)).average_cost_per_request
          * (get_cost_summary (Client.mk "k" none none 5 2)).request_count :=
  ⟨by decide, (claim2_cost_summary (Client.mk "k" none none 5 2)).2.2 (by decide)⟩

/-- C3: `_estimate_cost` computes
`prompt_tokens/1000 * input_rate + completion_tokens/1000 * output_rate`
from the pricing-table entry; an unknown model id falls back to the default
rate `(0.001, 0.003)` rather than failing; for any model,
1000 prompt and 1000 completion tokens cost `input_rate + output_rate`,
which is `0.004` for the default tier. -/
theorem claim3_estimate_cost (model : String) (pt ct : ℕ) :
    _estimate_cost model (pt : ℤ) (ct : ℤ)
      = (pt : ℚ) / 1000 * (modelPricing model).1
        + (ct : ℚ) / 1000 * (modelPricing model).2 ∧
    (model ∉ pricingKeys → modelPricing model = (0.001, 0.003)) ∧
    _estimate_cost model 1000 1000 = (modelPricing model).1 + (modelPricing model).2 ∧
    _estimate_cost "x-ai/grok-4-fast" 1000 1000 = 0.004 := by
  refine ⟨by simp only [_estimate_cost]; push_cast; ring, ?_, ?_,
    by norm_num [_estimate_cost, modelPricing]⟩
  · intro h
    simp only [pricingKeys, List.mem_cons, List.not_mem_nil, or_false, not_or] at h
    obtain ⟨h1, h2, h3, h4, h5, h6, h7, h8, h9⟩ := h
    simp only [modelPricing, if_neg h1, if_neg h2, if_neg h3, if_neg h4,
      if_neg h5, if_neg h6, if_neg h7, if_neg h8, if_neg h9]
  · simp only [_estimate_cost]
    push_cast
    ring

/-- Witness for C3 at a model id outside the pricing table. -/
theorem claim3_estimate_cost_witness :
    "no-such/model" ∉ pricingKeys ∧ modelPricing "no-such/model" = (0.001, 0.003) :=
  ⟨by decide, (claim3_estimate_cost "no-such/model" 0 0).2.1 (by decide)⟩

/-- C7: `research_query` returns exactly what `chat_completion` returns on
the two-element message list consisting of the fixed system instruction
followed by the user message with the query, with the same state effects;
`research_query_stream` likewise agrees with `chat_completion_stream` on
those messages. -/
theorem claim7_research_query_delegates (c : Client) (query model : String)
    (resp : Response) (chunks : List Chunk) (requested : ℕ) :
    research_query c query model resp
      = chat_completion c
          [{ role := "system",
             content := .str "You are an AI research assistant. Provide detailed, accurate, and well-structured responses to research queries." },
           { role := "user", content := .str query }] model resp ∧
    research_query_stream c query model chunks requested
      = chat_completion_stream c
          [{ role := "system", content := .str researchSystemInstruction },
           { role := "user", content := .str query }] model chunks requested :=
  ⟨rfl, rfl⟩

/-- The prompt-token count the estimator receives when a response carries no
extractable cost: the `usage` tokens when `response.usage` is well-formed,
`0` otherwise (`usage_info.get('prompt_tokens', 0)`). -/
def respPromptTokens (r : Response) : ℤ :=
  match r.usage with
  | .good u => u.prompt_tokens
  | _ => 0

/-- Companion of `respPromptTokens` for the completion tokens. -/
def respCompletionTokens (r : Response) : ℤ :=
  match r.usage with
  | .good u => u.completion_tokens
  | _ => 0

/-- C4: when a response's cost field is malformed or missing (in either the
`extra_body` or the header location, including a usage block whose attribute
access raises), non-streaming requests do not propagate the extraction
failure: the exception is swallowed, the exact cost is treated as `0`, and
both `chat_completion` and `analyze_image` fall through to the token-based
estimator (with token counts `0` when no usage was extracted, in which case
the estimate itself is `0`). -/
theorem claim4_malformed_cost_is_estimated (c : Client) (messages : List Message)
    (image_url prompt model : String) (r : Response)
    (heb : r.extraBodyCost = .absent ∨ r.extraBodyCost = .malformed)
    (hh : r.headerCost = .absent ∨ r.headerCost = .malformed) :
    (extract_cost_info r).1 = 0 ∧
    (chat_completion c messages model r).2.1.cost
      = _estimate_cost model (respPromptTokens r) (respCompletionTokens r) ∧
    (analyze_image c image_url prompt model r).2.1.cost
      = _estimate_cost model (respPromptTokens r) (respCompletionTokens r) := by
  obtain ⟨u, eb, hc, s⟩ := r
  have hzero : ∀ m : String, _estimate_cost m 0 0 = 0 := by
    intro m; simp [_estimate_cost]
  rcases heb with heb | heb <;> rcases hh with hh | hh <;>
    simp only at heb hh <;> subst heb <;> subst hh <;>
    cases u <;>
    simp [extract_cost_info, extractBody, chat_completion, analyze_image,
      UsageInfo.truthy, UsageInfo.promptTokens, UsageInfo.completionTokens,
      respPromptTokens, respCompletionTokens, hzero]

/-- Witness for C4: a response with well-formed usage, a malformed
`extra_body` cost and no cost header. -/
theorem claim4_malformed_cost_is_estimated_witness :
    ((Response.mk (.good ⟨3, 5, 8⟩) .malformed .absent "hi").extraBodyCost = .absent ∨
      (Response.mk (.good ⟨3, 5, 8⟩) .malformed .absent "hi").extraBodyCost = .malformed) ∧
    ((Response.mk (.good ⟨3, 5, 8⟩) .malformed .absent "hi").headerCost = .absent ∨
      (Response.mk (.good ⟨3, 5, 8⟩) .malformed .absent "hi").headerCost = .malformed) ∧
    ((extract_cost_info (Response.mk (.good ⟨3, 5, 8⟩) .malformed .absent "hi")).1 = 0 ∧
      (chat_completion freshClient [] "m"
          (Response.mk (.good ⟨3, 5, 8⟩) .malformed .absent "hi")).2.1.cost
        = _estimate_cost "m"
            (respPromptTokens (Response.mk (.good ⟨3, 5, 8⟩) .malformed .absent "hi"))
            (respCompletionTokens (Response.mk (.good ⟨3, 5, 8⟩) .malformed .absent "hi")) ∧
      (analyze_image freshClient "u" "p" "m"
          (Response.mk (.good ⟨3, 5, 8⟩) .malformed .absent "hi")).2.1.cost
        = _estimate_cost "m"
            (respPromptTokens (Response.mk (.good ⟨3, 5, 8⟩) .malformed .absent "hi"))
            (respCompletionTokens (Response.mk (.good ⟨3, 5, 8⟩) .malformed .absent "hi"))) :=
  ⟨Or.inr rfl, Or.inl rfl,
    claim4_malformed_cost_is_estimated freshClient [] "u" "p" "m" _
      (Or.inr rfl) (Or.inl rfl)⟩

/-- C5: draining a stream that yields exactly `["Hello", " world"]` with no
usage-bearing chunk attaches a non-null cost record whose completion-token
count is 2 (whitespace-separated segments counted per fragment) and whose
cost is `_estimate_cost model 0 2`. -/
theorem claim5_stream_fallback_record (c : Client) (messages : List Message)
    (model : String) :
    (chat_completion_stream c messages model
        [⟨some "Hello", none⟩, ⟨some " world", none⟩] 3).2.1
      = some { cost := _estimate_cost model 0 2, prompt_tokens := 0,
               completion_tokens := 2, total_tokens := 2, model := model } ∧
    (chat_completion_stream c messages model
        [⟨some "Hello", none⟩, ⟨some " world", none⟩] 3).2.2
      = ["Hello", " world"] :=
  ⟨rfl, rfl⟩

/-- C6: a streaming caller that stops iterating before the fragment sequence
is exhausted gets no cost record, and `total_cost` / `request_count` are left
unchanged — the accounting epilogue runs only once the sequence is fully
drained.  This holds for all three streaming operations. -/
theorem claim6_abandoned_stream_untracked (c : Client) (messages : List Message)
    (image_url prompt query model : String) (chunks : List Chunk) (k : ℕ)
    (h : k < (streamFragments chunks).length) :
    chat_completion_stream c messages model chunks k
      = (c, none, (streamFragments chunks).take k) ∧
    analyze_image_stream c image_url prompt model chunks k
      = (c, none, (streamFragments chunks).take k) ∧
    research_query_stream c query model chunks k
      = (c, none, (streamFragments chunks).take k) := by
  refine ⟨?_, ?_, ?_⟩ <;>
    simp [chat_completion_stream, analyze_image_stream, research_query_stream,
      if_pos h.le]

/-- Witness for C6: consuming 0 of 1 fragments. -/
theorem claim6_abandoned_stream_untracked_witness :
    0 < (streamFragments [⟨some "a", none⟩]).length ∧
    chat_completion_stream freshClient [] "m" [⟨some "a", none⟩] 0
      = (freshClient, none, (streamFragments [⟨some "a", none⟩]).take 0) :=
  ⟨by decide,
    (claim6_abandoned_stream_untracked freshClient [] "u" "p" "q" "m"
      [⟨some "a", none⟩] 0 (by decide)).1⟩

/-- Non-negativity of an exact-cost value a response may carry. -/
def Attr.costNonneg : Attr ℚ → Prop
  | .good q => 0 ≤ q
  | _ => True

/-- Non-negativity of the usage token counts a response may carry (only the
two counts that flow into the estimator matter). -/
def Attr.usageNonneg : Attr Usage → Prop
  | .good u => 0 ≤ u.prompt_tokens ∧ 0 ≤ u.completion_tokens
  | _ => True

/-- Non-negativity of the token counts a streaming chunk's usage block
feeds into the counters (after the `or 0` read). -/
def Chunk.usageNonneg (ch : Chunk) : Prop :=
  match ch.usage with
  | some u => 0 ≤ u.prompt_tokens.getD 0 ∧ 0 ≤ u.completion_tokens.getD 0
  | none => True

/-- A completed request whose remote answer carries no negative exact-cost
value and no negative usage token count (both are remote-controlled ints
the code never sign-checks). -/
def Req.nonneg : Req → Prop
  | .chat _ _ r => r.extraBodyCost.costNonneg ∧ r.headerCost.costNonneg ∧ r.usage.usageNonneg
  | .image _ _ _ r => r.extraBodyCost.costNonneg ∧ r.headerCost.costNonneg ∧ r.usage.usageNonneg
  | .chatStream _ _ ks => ∀ ch ∈ ks, ch.usageNonneg
  | .imageStream _ _ _ ks => ∀ ch ∈ ks, ch.usageNonneg

/-- Every pricing-table rate (and the default fallback) is non-negative. -/
theorem modelPricing_nonneg (model : String) :
    0 ≤ (modelPricing model).1 ∧ 0 ≤ (modelPricing model).2 := by
  unfold modelPricing
  split_ifs <;> norm_num

/-- The token-based estimate is non-negative when the token counts are. -/
theorem estimate_cost_nonneg (model : String) (pt ct : ℤ)
    (hpt : 0 ≤ pt) (hct : 0 ≤ ct) :
    0 ≤ _estimate_cost model pt ct := by
  have h := modelPricing_nonneg model
  have hpt' : (0 : ℚ) ≤ (pt : ℚ) := by exact_mod_cast hpt
  have hct' : (0 : ℚ) ≤ (ct : ℚ) := by exact_mod_cast hct
  exact add_nonneg
    (mul_nonneg (div_nonneg hpt' (by norm_num)) h.1)
    (mul_nonneg (div_nonneg hct' (by norm_num)) h.2)

/-- The token counts `_extract_cost_info` hands to the estimator are
non-negative whenever the response's usage counts are. -/
theorem extract_usage_tokens_nonneg (r : Response) (h : r.usage.usageNonneg) :
    0 ≤ (extract_cost_info r).2.promptTokens ∧
    0 ≤ (extract_cost_info r).2.completionTokens := by
  obtain ⟨u, eb, hc, s⟩ := r
  cases u <;> cases eb <;> cases hc <;>
    simp_all [extract_cost_info, extractBody, Attr.usageNonneg,
      UsageInfo.promptTokens, UsageInfo.completionTokens]

/-- The streaming loop's counters stay non-negative when they start so and
no usage chunk injects a negative count. -/
theorem streamScanFrom_nonneg (chunks : List Chunk) : ∀ (pt ct : ℤ) (full : String),
    0 ≤ pt → 0 ≤ ct → (∀ ch ∈ chunks, ch.usageNonneg) →
    0 ≤ (streamScanFrom pt ct full chunks).1 ∧
    0 ≤ (streamScanFrom pt ct full chunks).2.1 := by
  induction chunks with
  | nil => intro pt ct full hpt hct _; exact ⟨hpt, hct⟩
  | cons ch rest ih =>
    intro pt ct full hpt hct h
    obtain ⟨cont, usg⟩ := ch
    have hch : Chunk.usageNonneg ⟨cont, usg⟩ := h _ (List.mem_cons_self _ rest)
    have hr : ∀ x ∈ rest, x.usageNonneg :=
      fun x hx => h x (List.mem_cons_of_mem _ hx)
    have hct2 : ∀ s : String, (0 : ℤ) ≤ ct + (countWords s : ℤ) :=
      fun s => add_nonneg hct (Int.ofNat_nonneg _)
    cases usg with
    | some u =>
      obtain ⟨h1, h2⟩ := hch
      cases cont <;> exact ih _ _ _ h1 h2 hr
    | none =>
      cases cont with
      | some s => exact ih _ _ _ hpt (hct2 s) hr
      | none => exact ih _ _ _ hpt hct hr

/-- The extracted exact cost is non-negative whenever the response's cost
values are. -/
theorem extract_cost_info_nonneg (r : Response)
    (h1 : r.extraBodyCost.costNonneg) (h2 : r.headerCost.costNonneg) :
    0 ≤ (extract_cost_info r).1 := by
  obtain ⟨u, eb, hc, s⟩ := r
  cases u <;> cases eb <;> cases hc <;>
    simp_all [extract_cost_info, extractBody, Attr.costNonneg]

/-- A completed request with non-negative response cost values never
decreases `total_cost`. -/
theorem stepReq_total_cost_mono (c : Client) (r : Req) (h : r.nonneg) :
    c.total_cost ≤ (stepReq c r).1.total_cost := by
  cases r with
  | chat ms m resp =>
    obtain ⟨h1, h2, h3⟩ := h
    have ht := extract_usage_tokens_nonneg resp h3
    simp only [stepReq, chat_completion]
    refine le_add_of_nonneg_right ?_
    split_ifs
    · exact estimate_cost_nonneg m _ _ ht.1 ht.2
    · exact extract_cost_info_nonneg resp h1 h2
  | image u p m resp =>
    obtain ⟨h1, h2, h3⟩ := h
    have ht := extract_usage_tokens_nonneg resp h3
    simp only [stepReq, analyze_image]
    refine le_add_of_nonneg_right ?_
    split_ifs
    · exact estimate_cost_nonneg m _ _ ht.1 ht.2
    · exact extract_cost_info_nonneg resp h1 h2
  | chatStream ms m ks =>
    have ht := streamScanFrom_nonneg ks 0 0 "" le_rfl le_rfl h
    simp only [stepReq, streamDrain, streamScan]
    exact le_add_of_nonneg_right (estimate_cost_nonneg m _ _ ht.1 ht.2)
  | imageStream u p m ks =>
    have ht := streamScanFrom_nonneg ks 0 0 "" le_rfl le_rfl h
    simp only [stepReq, streamDrain, streamScan]
    exact le_add_of_nonneg_right (estimate_cost_nonneg m _ _ ht.1 ht.2)

/-- `total_cost` is non-decreasing along a request sequence with
non-negative response cost values. -/
theorem runRequests_total_cost_mono (reqs : List Req) : ∀ c : Client,
    (∀ r ∈ reqs, r.nonneg) →
    c.total_cost ≤ (runRequests c reqs).1.total_cost := by
  induction reqs with
  | nil => intro c _; simp [runRequests]
  | cons r rs ih =>
    intro c h
    have h1 := stepReq_total_cost_mono c r (h r (List.mem_cons_self r rs))
    have h2 := ih (stepReq c r).1 fun x hx => h x (List.mem_cons_of_mem r hx)
    simp only [runRequests]
    exact le_trans h1 h2

/-- C8 counterexample: the claim says `total_cost` is monotonically
non-decreasing across every sequence of operations, but the code adds
remote-controlled values unchecked, in two ways: a completed
`chat_completion` whose response carries the well-formed exact cost `-1`
(e.g. `extra_body = {'cost': {'total': -1}}`) decreases `total_cost`, and
so does one whose response carries no cost value but a negative
`usage.prompt_tokens = -1000000`, which flows into `_estimate_cost` and
yields a negative estimate. -/
theorem claim8_counterexample_negative_cost :
    (chat_completion freshClient [] "m"
        (Response.mk .absent (.good (-1)) .absent "x")).1.total_cost
      < freshClient.total_cost ∧
    (chat_completion freshClient [] "m"
        (Response.mk (.good ⟨-1000000, 0, 0⟩) .absent .absent "x")).1.total_cost
      < freshClient.total_cost := by
  have hm : modelPricing "m" = (0.001, 0.003) := rfl
  constructor <;>
    norm_num [chat_completion, extract_cost_info, extractBody, freshClient,
      UsageInfo.truthy, UsageInfo.promptTokens, UsageInfo.completionTokens,
      _estimate_cost, hm]

/-- C8 (amended): `request_count` is strictly incremented by each completed
request and never decremented or reset, unconditionally; `total_cost` is
monotonically non-decreasing across every sequence of completed requests
whose responses carry no negative exact-cost value and no negative usage
token count (streaming usage chunks included) — both are remote-controlled
ints the code never sign-checks, and either kind of negative value makes
`total_cost` decrease. -/
theorem claim8_accumulators_monotone (c : Client) (reqs : List Req)
    (h : ∀ r ∈ reqs, r.nonneg) :
    c.total_cost ≤ (runRequests c reqs).1.total_cost ∧
    (runRequests c reqs).1.request_count = c.request_count + reqs.length ∧
    ∀ (c2 : Client) (r : Req),
      (stepReq c2 r).1.request_count = c2.request_count + 1 :=
  ⟨runRequests_total_cost_mono reqs c h, (runRequests_accounting reqs c).1,
    fun c2 r => (stepReq_accounting c2 r).1⟩

/-- Witness for C8 (amended) on a one-request sequence. -/
theorem claim8_accumulators_monotone_witness :
    (∀ r ∈ [Req.chatStream [] "m" [Chunk.mk (some "hi") none]], r.nonneg) ∧
    freshClient.total_cost
      ≤ (runRequests freshClient
          [Req.chatStream [] "m" [Chunk.mk (some "hi") none]]).1.total_cost ∧
    (runRequests freshClient
        [Req.chatStream [] "m" [Chunk.mk (some "hi") none]]).1.request_count
      = freshClient.request_count + 1 :=
  ⟨by simp [Req.nonneg, Chunk.usageNonneg],
    (claim8_accumulators_monotone freshClient _
      (by simp [Req.nonneg, Chunk.usageNonneg])).1,
    (claim8_accumulators_monotone freshClient _
      (by simp [Req.nonneg, Chunk.usageNonneg])).2.1⟩

/-- Python truthiness distributes over `or`-chaining of optional strings. -/
theorem falsyStr_pyOr (a b : Option String) :
    falsyStr (pyOr a b) = (falsyStr a && falsyStr b) := by
  cases hfa : falsyStr a <;> simp [pyOr, hfa]

/-- C9: construction raises the `ValueError` iff neither the explicit
`api_key` argument nor the environment variable provides a truthy key
(an empty-string argument counts as absent and falls back to the
environment); on success the accumulators start at `0.0` and `0`. -/
theorem claim9_constructor_key_check (api_key env_api_key site_url env_site_url
    site_name env_site_name : Option String) :
    ((∃ e, clientInit api_key env_api_key site_url env_site_url
        site_name env_site_name = .error e)
      ↔ (falsyStr api_key = true ∧ falsyStr env_api_key = true)) ∧
    (∀ cl, clientInit api_key env_api_key site_url env_site_url
        site_name env_site_name = .ok cl →
      cl.total_cost = 0 ∧ cl.request_count = 0) ∧
    clientInit (some "") env_api_key site_url env_site_url
        site_name env_site_name
      = clientInit none env_api_key site_url env_site_url
          site_name env_site_name := by
  refine ⟨?_, ?_, ?_⟩
  · constructor
    · rintro ⟨e, he⟩
      by_cases hc : falsyStr (pyOr api_key env_api_key) = true
      · have h2 := (falsyStr_pyOr api_key env_api_key).symm.trans hc
        exact Bool.and_eq_true_iff.mp h2
      · simp [clientInit, hc] at he
    · rintro ⟨h1, h2⟩
      have hc : falsyStr (pyOr api_key env_api_key) = true := by
        rw [falsyStr_pyOr, h1, h2]; rfl
      refine ⟨"API key is required. Set OPENROUTER_API_KEY environment variable or pass api_key parameter.", ?_⟩
      simp [clientInit, hc]
  · intro cl hcl
    by_cases hc : falsyStr (pyOr api_key env_api_key) = true
    · simp [clientInit, hc] at hcl
    · simp [clientInit, hc] at hcl
      rw [← hcl]
      exact ⟨rfl, rfl⟩
  · simp [clientInit, pyOr, falsyStr]

/-- Witness for C9: no explicit key and no environment key raise the error;
an explicit key with empty environment succeeds with zeroed accumulators. -/
theorem claim9_constructor_key_check_witness :
    (∃ e, clientInit none none none none none none = .error e) ∧
    ∀ cl, clientInit (some "sk-x") none none none none none = .ok cl →
      cl.total_cost = 0 ∧ cl.request_count = 0 :=
  ⟨(claim9_constructor_key_check none none none none none none).1.mpr ⟨rfl, rfl⟩,
    fun cl hcl =>
      (claim9_constructor_key_check (some "sk-x") none none none none none).2.1 cl hcl⟩

/-- In the absence of usage-bearing chunks, the streaming loop's final
completion-token counter is the running total of per-fragment word counts. -/
theorem streamScanFrom_no_usage (chunks : List Chunk) : ∀ (pt ct : ℤ) (full : String),
    (∀ ch ∈ chunks, ch.usage = none) →
    (streamScanFrom pt ct full chunks).2.1
      = ct + (((streamFragments chunks).map countWords).sum : ℤ) := by
  induction chunks with
  | nil => intro pt ct full _; simp [streamScanFrom, streamFragments]
  | cons ch rest ih =>
    intro pt ct full h
    obtain ⟨cont, usg⟩ := ch
    have hu : usg = none := h ⟨cont, usg⟩ (List.mem_cons_self _ rest)
    subst hu
    have hr : ∀ x ∈ rest, x.usage = none :=
      fun x hx => h x (List.mem_cons_of_mem _ hx)
    cases cont with
    | some s =>
      simp only [streamScanFrom]
      rw [ih _ _ _ hr]
      simp only [streamFragments, List.filterMap_cons]
      simp [streamFragments]
      omega
    | none =>
      simp only [streamScanFrom]
      rw [ih _ _ _ hr]
      simp [streamFragments]

/-- C10: absent a usage-bearing chunk, the approximated completion-token
count is the sum over the yielded fragments of each fragment's own
whitespace-word count; for the fragments `["Hel", "lo"]` this gives 2,
although their concatenation `"Hello"` contains a single word — splitting a
word across fragment boundaries inflates the estimate. -/
theorem claim10_per_fragment_word_count :
    (∀ chunks : List Chunk, (∀ ch ∈ chunks, ch.usage = none) →
      (streamScan chunks).2.1
        = (((streamFragments chunks).map countWords).sum : ℤ)) ∧
    (streamScan [⟨some "Hel", none⟩, ⟨some "lo", none⟩]).2.1 = 2 ∧
    countWords ("Hel" ++ "lo") = 1 := by
  refine ⟨fun chunks h => ?_, by decide, by decide⟩
  simpa using streamScanFrom_no_usage chunks 0 0 "" h

/-- Witness for C10 on the `["Hel", "lo"]` chunk list. -/
theorem claim10_per_fragment_word_count_witness :
    (∀ ch ∈ [Chunk.mk (some "Hel") none, Chunk.mk (some "lo") none],
      ch.usage = none) ∧
    (streamScan [Chunk.mk (some "Hel") none, Chunk.mk (some "lo") none]).2.1
      = (((streamFragments
          [Chunk.mk (some "Hel") none, Chunk.mk (some "lo") none]).map
            countWords).sum : ℤ) :=
  ⟨by decide, claim10_per_fragment_word_count.1 _ (by decide)⟩
